import Mathlib

/-!
Shallow embedding of the logging middleware (repository GouravSittam/12203224,
directory "Logging Middleware"): the taxonomy validator (validator.ts), the
credential/token manager (auth.ts), the delivery pipeline and client facade
(logger.ts).  Remote HTTP interactions are modelled by explicit outcome
parameters (`AuthOutcome` for the auth exchange, a `transport` function for
the per-attempt POST of a log record); time is an explicit `Int` parameter
standing for `Date.now()`.  JavaScript falsiness of `""` and `0` is modelled
explicitly where the source relies on it (`!message`, `!this.authToken`,
`!this.tokenExpiry`, `config.retryAttempts || 3`).
-/

/-! ## Taxonomy validator (src/validator.ts) -/

def VALID_STACKS : List String := ["backend", "frontend"]

def VALID_LEVELS : List String := ["debug", "info", "warn", "error", "fatal"]

def BACKEND_PACKAGES : List String :=
  ["cache", "controller", "cron_job", "db", "domain", "handler", "repository",
   "route", "service"]

def FRONTEND_PACKAGES : List String :=
  ["api", "component", "hook", "page", "state", "style"]

def SHARED_PACKAGES : List String := ["auth", "config", "middleware", "utils"]

def ALL_PACKAGES : List String :=
  BACKEND_PACKAGES ++ FRONTEND_PACKAGES ++ SHARED_PACKAGES

def isValidStack (stack : String) : Bool := VALID_STACKS.contains stack

def isValidLevel (level : String) : Bool := VALID_LEVELS.contains level

def isValidPackage (pkg : String) : Bool := ALL_PACKAGES.contains pkg

def isValidPackageForStack (stack pkg : String) : Bool :=
  if SHARED_PACKAGES.contains pkg then true
  else if stack == "backend" then BACKEND_PACKAGES.contains pkg
  else if stack == "frontend" then FRONTEND_PACKAGES.contains pkg
  else false

/-- The individual error entries `validateLogParameters` can push, as a
structured type; `VError.render` produces the exact strings of the source. -/
inductive VError where
  | invalidStack (stack : String)
  | invalidLevel (level : String)
  | invalidPackage (pkg : String)
  | pkgNotForStack (pkg stack : String)
  | msgEmpty
  | msgTooLong
deriving DecidableEq

def VError.render : VError → String
  | .invalidStack stack =>
      "Invalid stack: \"" ++ stack ++ "\". Must be one of: " ++
        String.intercalate ", " VALID_STACKS
  | .invalidLevel level =>
      "Invalid level: \"" ++ level ++ "\". Must be one of: " ++
        String.intercalate ", " VALID_LEVELS
  | .invalidPackage pkg =>
      "Invalid package: \"" ++ pkg ++ "\". Must be one of: " ++
        String.intercalate ", " ALL_PACKAGES
  | .pkgNotForStack pkg stack =>
      "Package \"" ++ pkg ++ "\" is not valid for stack \"" ++ stack ++ "\""
  | .msgEmpty => "Message must be a non-empty string"
  | .msgTooLong => "Message must not exceed 1000 characters"

structure ValidationResult where
  isValid : Bool
  errors : List VError
deriving DecidableEq

/-- `validateLogParameters(stack, level, pkg, message)`.  The message checks
mirror the source exactly: `!message` (empty string is falsy) and
`message.length > 1000`, both on the raw message — the source does not trim
the message before validating it. -/
def validateLogParameters (stack level pkg message : String) : ValidationResult :=
  let errors : List VError :=
    (if !isValidStack stack then [VError.invalidStack stack] else [])
    ++ (if !isValidLevel level then [VError.invalidLevel level] else [])
    ++ (if !isValidPackage pkg then [VError.invalidPackage pkg] else [])
    ++ (if isValidStack stack && isValidPackage pkg &&
           !isValidPackageForStack stack pkg
        then [VError.pkgNotForStack pkg stack] else [])
    ++ (if message == "" then [VError.msgEmpty] else [])
    ++ (if message.length > 1000 then [VError.msgTooLong] else [])
  { isValid := errors.isEmpty, errors := errors }

/-- JavaScript `String.prototype.toLowerCase`, modelled character-wise. -/
def jsToLower (s : String) : String := ⟨s.data.map Char.toLower⟩

/-- JavaScript `String.prototype.trim`: strip leading and trailing
whitespace. -/
def jsTrim (s : String) : String :=
  ⟨((s.data.dropWhile Char.isWhitespace).reverse.dropWhile Char.isWhitespace).reverse⟩

/-- `normalizeValue(value)` = `value.toLowerCase().trim()`. -/
def normalizeValue (value : String) : String := jsTrim (jsToLower value)

/-! ## Credential/token manager (src/auth.ts) -/

structure AuthState where
  authToken : Option String
  tokenExpiry : Option Int
deriving DecidableEq

/-- `isTokenValid()`: `if (!this.authToken || !this.tokenExpiry) return false;
return Date.now() < this.tokenExpiry - 300000;` — the falsy cases (`null`,
`""`, `0`) are spelled out. -/
def isTokenValid (st : AuthState) (now : Int) : Bool :=
  match st.authToken, st.tokenExpiry with
  | some tok, some exp =>
      if tok == "" || exp == 0 then false
      else decide (now < exp - 300000)
  | _, _ => false

structure AuthResponse where
  token_type : String
  access_token : String
  expires_in : Int
deriving DecidableEq

/-- Outcome of the remote `POST /auth` exchange. -/
inductive AuthOutcome where
  | ok (resp : AuthResponse)
  | err (message : String)
deriving DecidableEq

/-- `authenticate(credentials)`: on success stores the token and
`Date.now() + expires_in * 1000`; on failure rethrows
`Authentication failed: ...` and leaves the state unchanged. -/
def authenticate (remote : AuthOutcome) (now : Int) : Except String AuthState :=
  match remote with
  | .ok resp =>
      .ok { authToken := some resp.access_token
          , tokenExpiry := some (now + resp.expires_in * 1000) }
  | .err msg => .error ("Authentication failed: " ++ msg)

/-- `refreshTokenIfNeeded(credentials)`: re-runs `authenticate` only when
`isTokenValid()` is false. -/
def refreshTokenIfNeeded (st : AuthState) (now : Int) (remote : AuthOutcome) :
    Except String AuthState :=
  if isTokenValid st now then .ok st
  else authenticate remote now

/-- `clearToken()`. -/
def clearToken (_st : AuthState) : AuthState :=
  { authToken := none, tokenExpiry := none }

/-- `getAuthorizationHeader()`: `if (!this.authToken) return null;
return "Bearer " + this.authToken;`. -/
def getAuthorizationHeader (st : AuthState) : Option String :=
  match st.authToken with
  | some tok => if tok == "" then none else some ("Bearer " ++ tok)
  | none => none

/-! ## Logger (src/logger.ts) -/

structure LoggerConfig where
  baseURL : String
  authToken : Option String
  retryAttempts : Option Nat
  retryDelay : Option Int
deriving DecidableEq

structure LoggerState where
  retryAttempts : Nat
  retryDelay : Int
  isInitialized : Bool
  auth : AuthState
deriving DecidableEq

/-- The `Logger` constructor: `this.retryAttempts = config.retryAttempts || 3;
this.retryDelay = config.retryDelay || 1000;` (JavaScript `||`: `0` falls back
to the default), and the `AuthService` constructor keeps `config.authToken`
when truthy. -/
def mkLogger (config : LoggerConfig) : LoggerState :=
  { retryAttempts :=
      match config.retryAttempts with
      | some n => if n == 0 then 3 else n
      | none => 3
  , retryDelay :=
      match config.retryDelay with
      | some d => if d == 0 then 1000 else d
      | none => 1000
  , isInitialized := false
  , auth :=
      { authToken :=
          match config.authToken with
          | some tok => if tok == "" then none else some tok
          | none => none
      , tokenExpiry := none } }

structure LogResponse where
  logID : String
  message : String
deriving DecidableEq

/-- An error value as seen by the retry loop's catch block: its message, and
`error.response?.status` when the error carries an HTTP response. -/
structure ErrVal where
  message : String
  status : Option Nat
deriving DecidableEq

/-- Outcome of one POST of the log record (indexed by the attempt number). -/
inductive AttemptOutcome where
  | ok (resp : LogResponse)
  | err (e : ErrVal)
deriving DecidableEq

instance {ε α : Type} [DecidableEq ε] [DecidableEq α] : DecidableEq (Except ε α) :=
  fun a b =>
    match a, b with
    | .ok x, .ok y =>
        if h : x = y then .isTrue (by rw [h])
        else .isFalse (by intro hc; cases hc; exact h rfl)
    | .error x, .error y =>
        if h : x = y then .isTrue (by rw [h])
        else .isFalse (by intro hc; cases hc; exact h rfl)
    | .ok _, .error _ => .isFalse (by intro hc; cases hc)
    | .error _, .ok _ => .isFalse (by intro hc; cases hc)

/-- Result of `sendLogWithRetry`: its outcome together with the observable
effects of the loop — the backoff waits performed (`await this.delay(...)`),
the number of HTTP POSTs made, and the Authorization header attached to each
POST. -/
structure SendResult where
  outcome : Except ErrVal LogResponse
  waits : List Int
  posts : Nat
  headers : List String
deriving DecidableEq

def lastErrorMessage : Option ErrVal → String
  | some e => e.message
  | none => "undefined"

/-- The error thrown after the loop:
`Failed to send log after N attempts. Last error: ...`. -/
def exhaustedError (retryAttempts : Nat) (lastError : Option ErrVal) : ErrVal :=
  { message := "Failed to send log after " ++ toString retryAttempts ++
      " attempts. Last error: " ++ lastErrorMessage lastError
  , status := none }

/-- The body of one loop iteration up to the catch: get the Authorization
header (throwing `No valid authentication token available` when absent —
note this happens inside the try, so it is caught and retried), then POST.
Returns the outcome, the number of POSTs made (0 or 1) and the header used.
The `isTokenValid` check at the top of the source's loop only logs a warning
("we'll just try with the current token") and has no behavioural effect, so
it does not appear here. -/
def attemptOnce (auth : AuthState) (transport : Nat → AttemptOutcome)
    (attempt : Nat) : Except ErrVal LogResponse × Nat × List String :=
  match getAuthorizationHeader auth with
  | none => (.error { message := "No valid authentication token available"
                    , status := none }, 0, [])
  | some h =>
      match transport attempt with
      | .ok resp => (.ok resp, 1, [h])
      | .err e => (.error e, 1, [h])

/-- The loop of `sendLogWithRetry`, fueled by the number of remaining
attempts (`remaining = retryAttempts - attempt + 1` on entry).  In the catch:
rethrow immediately when `error.response?.status === 400`; otherwise, if
`attempt < retryAttempts`, wait `retryDelay * attempt` and retry; when the
loop ends, throw the exhausted error. -/
def sendAux (retryAttempts : Nat) (retryDelay : Int) (auth : AuthState)
    (transport : Nat → AttemptOutcome) :
    Nat → Nat → Option ErrVal → List Int → Nat → List String → SendResult
  | 0, _, lastError, waits, posts, headers =>
      { outcome := .error (exhaustedError retryAttempts lastError)
      , waits := waits, posts := posts, headers := headers }
  | remaining + 1, attempt, _, waits, posts, headers =>
      match attemptOnce auth transport attempt with
      | (.ok resp, p, hs) =>
          { outcome := .ok resp, waits := waits, posts := posts + p
          , headers := headers ++ hs }
      | (.error e, p, hs) =>
          if e.status == some 400 then
            { outcome := .error e, waits := waits, posts := posts + p
            , headers := headers ++ hs }
          else if remaining == 0 then
            { outcome := .error (exhaustedError retryAttempts (some e))
            , waits := waits, posts := posts + p, headers := headers ++ hs }
          else
            sendAux retryAttempts retryDelay auth transport remaining
              (attempt + 1) (some e) (waits ++ [retryDelay * (Int.ofNat attempt)])
              (posts + p) (headers ++ hs)

/-- `sendLogWithRetry(logRequest)`: the loop runs `attempt = 1 .. retryAttempts`. -/
def sendLogWithRetry (st : LoggerState) (transport : Nat → AttemptOutcome) :
    SendResult :=
  sendAux st.retryAttempts st.retryDelay st.auth transport
    st.retryAttempts 1 none [] 0 []

/-- The normalized log record built by `Logger.Log`. -/
structure LogRequest where
  stack : String
  level : String
  package : String
  message : String
deriving DecidableEq

/-- Result of a `Log` call: outcome plus the pipeline observables and the
log record passed to the pipeline (`none` when validation or the
initialization check failed before the record was built). -/
structure LogCallResult where
  outcome : Except ErrVal LogResponse
  waits : List Int
  posts : Nat
  headers : List String
  record : Option LogRequest
deriving DecidableEq

/-- `Logging validation failed: <joined errors>`. -/
def validationFailedError (v : ValidationResult) : ErrVal :=
  { message := "Logging validation failed: " ++
      String.intercalate ", " (v.errors.map VError.render)
  , status := none }

/-- `Logger not initialized. Call initialize() first.` (instance-level). -/
def notInitializedError : ErrVal :=
  { message := "Logger not initialized. Call initialize() first."
  , status := none }

/-- `Logger.Log(stack, level, pkg, message)`: normalize the three taxonomy
fields (the message is passed to validation raw), validate, check
`isInitialized`, build the record with `message.trim()`, then run the retry
loop. -/
def LoggerLog (st : LoggerState) (transport : Nat → AttemptOutcome)
    (stack level pkg message : String) : LogCallResult :=
  let normalizedStack := normalizeValue stack
  let normalizedLevel := normalizeValue level
  let normalizedPackage := normalizeValue pkg
  let validation :=
    validateLogParameters normalizedStack normalizedLevel normalizedPackage message
  if !validation.isValid then
    { outcome := .error (validationFailedError validation)
    , waits := [], posts := 0, headers := [], record := none }
  else if !st.isInitialized then
    { outcome := .error notInitializedError
    , waits := [], posts := 0, headers := [], record := none }
  else
    let logRequest : LogRequest :=
      { stack := normalizedStack, level := normalizedLevel
      , package := normalizedPackage, message := jsTrim message }
    let s := sendLogWithRetry st transport
    { outcome := s.outcome, waits := s.waits, posts := s.posts
    , headers := s.headers, record := some logRequest }

/-- `logout()`: clears the token manager and marks the logger uninitialized. -/
def logout (st : LoggerState) : LoggerState :=
  { st with auth := clearToken st.auth, isInitialized := false }

/-! ## Global facade (module level of src/logger.ts) -/

structure GlobalState where
  globalLogger : Option LoggerState
deriving DecidableEq

/-- `getLogger()`. -/
def getLogger (g : GlobalState) : Option LoggerState := g.globalLogger

/-- `initializeLogger(config, credentials)`:
`globalLogger = new Logger(config); await globalLogger.initialize(credentials);`
— the fresh logger is stored in the global before the (possibly failing)
authentication is awaited; `Logger.initialize` sets `isInitialized = true`
only after `authenticate` succeeds and rethrows its error otherwise. -/
def initializeLogger (_g : GlobalState) (config : LoggerConfig) (now : Int)
    (remote : AuthOutcome) : Except String Unit × GlobalState :=
  let fresh := mkLogger config
  match authenticate remote now with
  | .ok a =>
      (.ok (), { globalLogger := some { fresh with auth := a, isInitialized := true } })
  | .error e => (.error e, { globalLogger := some fresh })

/-- `Logger not initialized. Call initializeLogger() first.` (module-level). -/
def notInitializedTopError : ErrVal :=
  { message := "Logger not initialized. Call initializeLogger() first."
  , status := none }

/-- The exported `Log(stack, level, pkg, message)`: fails when no global
logger exists, otherwise delegates to `Logger.Log`. -/
def Log (g : GlobalState) (transport : Nat → AttemptOutcome)
    (stack level pkg message : String) : LogCallResult :=
  match g.globalLogger with
  | none =>
      { outcome := .error notInitializedTopError
      , waits := [], posts := 0, headers := [], record := none }
  | some st => LoggerLog st transport stack level pkg message

/-- The try/catch body shared by the level-specific convenience functions:
any failure of `Log` is swallowed (`console.error` only). -/
def swallow (r : LogCallResult) : Except ErrVal Unit :=
  match r.outcome with
  | .ok _ => .ok ()
  | .error _ => .ok ()

def logDebug (g : GlobalState) (transport : Nat → AttemptOutcome)
    (stack pkg message : String) : Except ErrVal Unit :=
  swallow (Log g transport stack "debug" pkg message)

def logInfo (g : GlobalState) (transport : Nat → AttemptOutcome)
    (stack pkg message : String) : Except ErrVal Unit :=
  swallow (Log g transport stack "info" pkg message)

def logWarn (g : GlobalState) (transport : Nat → AttemptOutcome)
    (stack pkg message : String) : Except ErrVal Unit :=
  swallow (Log g transport stack "warn" pkg message)

def logError (g : GlobalState) (transport : Nat → AttemptOutcome)
    (stack pkg message : String) : Except ErrVal Unit :=
  swallow (Log g transport stack "error" pkg message)

def logFatal (g : GlobalState) (transport : Nat → AttemptOutcome)
    (stack pkg message : String) : Except ErrVal Unit :=
  swallow (Log g transport stack "fatal" pkg message)

/-! ## Concrete fixtures -/

def cfgEx : LoggerConfig :=
  { baseURL := "http://20.244.56.144", authToken := none
  , retryAttempts := some 3, retryDelay := some 1000 }

def authEx : AuthState := { authToken := some "tok", tokenExpiry := some 1000000 }

def stEx : LoggerState :=
  { retryAttempts := 3, retryDelay := 1000, isInitialized := true, auth := authEx }

def transportOk : Nat → AttemptOutcome :=
  fun _ => .ok { logID := "log-1", message := "log created successfully" }

def transport404 : Nat → AttemptOutcome :=
  fun _ => .err { message := "Request failed with status code 404", status := some 404 }

def transport400 : Nat → AttemptOutcome :=
  fun _ => .err { message := "Request failed with status code 400", status := some 400 }

def transportFlaky : Nat → AttemptOutcome :=
  fun attempt =>
    if attempt ≤ 2 then .err { message := "timeout of 10000ms exceeded", status := none }
    else .ok { logID := "log-1", message := "log created successfully" }

/-! ## C1 -/

/-- C1 (counterexample): a failed initial authentication does propagate its
error, but `getLogger()` does not return `none` afterwards — `initializeLogger`
stores the freshly constructed logger in the global before awaiting
`initialize`, so the facade is left holding a non-initialized instance. -/
theorem c1_counterexample :
    (initializeLogger { globalLogger := none } cfgEx 0 (.err "Status 401: Unauthorized")).1.isOk = false
    ∧ getLogger (initializeLogger { globalLogger := none } cfgEx 0 (.err "Status 401: Unauthorized")).2 ≠ none := by
  decide

/-- C1 (amended): if the initial `authenticate()` of
`initializeLogger(config, credentials)` fails, the error propagates to the
caller, but the singleton has already been overwritten: `getLogger()` returns
the freshly constructed logger, whose `isInitialized` flag is still false. -/
theorem initializeLogger_authFailure_stores_logger (g : GlobalState)
    (config : LoggerConfig) (now : Int) (msg : String) :
    (initializeLogger g config now (.err msg)).1 = .error ("Authentication failed: " ++ msg)
    ∧ getLogger (initializeLogger g config now (.err msg)).2 = some (mkLogger config)
    ∧ (mkLogger config).isInitialized = false :=
  ⟨rfl, rfl, rfl⟩

/-! ## C9 -/

/-- C9: `isTokenValid()` is true iff a (nonempty) token and a (nonzero)
expiry are stored and the current time is strictly before
`expiresAt - 300000`; it is false whenever the token or the expiry is
absent. -/
theorem isTokenValid_spec (tok : String) (e now : Int)
    (htok : tok ≠ "") (he : e ≠ 0) :
    (isTokenValid { authToken := some tok, tokenExpiry := some e } now = true ↔ now < e - 300000)
    ∧ (∀ x, isTokenValid { authToken := x, tokenExpiry := none } now = false)
    ∧ (∀ y, isTokenValid { authToken := none, tokenExpiry := y } now = false) := by
  refine ⟨?_, ?_, ?_⟩
  · simp [isTokenValid, htok, he]
  · intro x; cases x <;> rfl
  · intro y; cases y <;> rfl

/-- C9 (witness): a stored token "abc" expiring at t=1000000 is still valid
at t=0, which is more than 5 minutes before expiry. -/
theorem isTokenValid_spec_witness :
    isTokenValid { authToken := some "abc", tokenExpiry := some 1000000 } 0 = true :=
  ((isTokenValid_spec "abc" 1000000 0 (by decide) (by decide)).1).mpr (by decide)

/-! ## C10 -/

/-- C10: each level-specific convenience function calls `Log` with its fixed
level and swallows every failure: for every global state, every transport
behaviour and every input, it returns normally. -/
theorem conveniences_never_raise (g : GlobalState) (transport : Nat → AttemptOutcome)
    (stack pkg message : String) :
    logDebug g transport stack pkg message = .ok ()
    ∧ logInfo g transport stack pkg message = .ok ()
    ∧ logWarn g transport stack pkg message = .ok ()
    ∧ logError g transport stack pkg message = .ok ()
    ∧ logFatal g transport stack pkg message = .ok () := by
  refine ⟨?_, ?_, ?_, ?_, ?_⟩ <;>
    simp only [logDebug, logInfo, logWarn, logError, logFatal, swallow] <;>
    split <;> rfl

/-! ## C3 -/

/-- C3 (counterexample): an HTTP 404 response — a 400-class response — is
retried like a transient failure: three POSTs are made and two backoff waits
are performed, contradicting fail-immediately-on-4xx. -/
theorem c3_counterexample :
    (sendLogWithRetry stEx transport404).waits = [1000, 2000]
    ∧ (sendLogWithRetry stEx transport404).posts = 3 := by
  decide

/-- C3 (amended): only a response with status exactly 400 makes `submit` fail
immediately with that error — zero backoff waits and zero additional
attempts; other 4xx statuses (e.g. 404) are retried. -/
theorem sendLogWithRetry_status400_immediate (st : LoggerState)
    (transport : Nat → AttemptOutcome) (hdr : String) (e : ErrVal)
    (hA : 1 ≤ st.retryAttempts)
    (hh : getAuthorizationHeader st.auth = some hdr)
    (ht : transport 1 = .err e) (hs : e.status = some 400) :
    sendLogWithRetry st transport =
      { outcome := .error e, waits := [], posts := 1, headers := [hdr] } := by
  unfold sendLogWithRetry
  obtain ⟨r, hr⟩ : ∃ r, st.retryAttempts = r + 1 := ⟨st.retryAttempts - 1, by omega⟩
  rw [hr]
  simp [sendAux, attemptOnce, hh, ht, hs]

/-- C3 (witness): against a transport answering 400, the pipeline makes one
POST, performs no wait, and fails with that error. -/
theorem sendLogWithRetry_status400_witness :
    sendLogWithRetry stEx transport400 =
      { outcome := .error { message := "Request failed with status code 400", status := some 400 }
      , waits := [], posts := 1, headers := ["Bearer tok"] } :=
  sendLogWithRetry_status400_immediate stEx transport400 "Bearer tok"
    { message := "Request failed with status code 400", status := some 400 }
    (by decide) (by decide) (by decide) (by decide)

/-! ## C2 -/

theorem mem_ite_singleton {α : Type} (c : Prop) [Decidable c] (a b : α) :
    (a ∈ if c then [b] else []) ↔ (c ∧ a = b) := by
  by_cases h : c
  · simp [h]
  · simp [h]

/-- C2 (counterexample): a whitespace-only message — empty after trimming —
passes validation: `validateLogParameters` checks the raw message, so no
message error is reported and the result is valid. -/
theorem c2_counterexample :
    (validateLogParameters "backend" "info" "handler" " ").isValid = true
    ∧ jsTrim " " = "" := by
  decide

/-- C2 (amended): `validateLogParameters` reports a message error iff the
RAW message is empty or its RAW length exceeds 1000 — no trimming is applied
to the message before validation.  In particular, for a valid taxonomy the
outcome is valid iff the raw message is nonempty and at most 1000 characters
(exactly 1000 validates, 1001 fails, the empty string fails). -/
theorem validateLogParameters_message_raw (stack level pkg message : String) :
    (VError.msgEmpty ∈ (validateLogParameters stack level pkg message).errors ↔ message = "")
    ∧ (VError.msgTooLong ∈ (validateLogParameters stack level pkg message).errors ↔
        1000 < message.length)
    ∧ ((validateLogParameters "backend" "info" "handler" message).isValid = true ↔
        (message ≠ "" ∧ message.length ≤ 1000)) := by
  refine ⟨?_, ?_, ?_⟩
  · simp [validateLogParameters, mem_ite_singleton]
  · simp [validateLogParameters, mem_ite_singleton]
  · have hbase : (validateLogParameters "backend" "info" "handler" message).isValid =
        ((if message == "" then [VError.msgEmpty] else []) ++
         (if message.length > 1000 then [VError.msgTooLong] else [])).isEmpty := rfl
    rw [hbase]
    by_cases hm : message = ""
    · simp [hm]
    · by_cases hl : message.length ≤ 1000
      · simp [hm, hl, Nat.not_lt.mpr hl]
      · simp [hm, hl, Nat.lt_of_not_le hl]

/-! ## C6 -/

/-- C6: every violated rule is reported independently, and the
"not valid for stack" error appears exactly when the stack and the package
are each individually valid but the package is neither shared nor in the
stack's specific set; validity of the result is emptiness of the error
list. -/
theorem validateLogParameters_independent (stack level pkg message : String) :
    (VError.invalidStack stack ∈ (validateLogParameters stack level pkg message).errors ↔
        isValidStack stack = false)
    ∧ (VError.invalidLevel level ∈ (validateLogParameters stack level pkg message).errors ↔
        isValidLevel level = false)
    ∧ (VError.invalidPackage pkg ∈ (validateLogParameters stack level pkg message).errors ↔
        isValidPackage pkg = false)
    ∧ (VError.pkgNotForStack pkg stack ∈ (validateLogParameters stack level pkg message).errors ↔
        (isValidStack stack = true ∧ isValidPackage pkg = true ∧
         isValidPackageForStack stack pkg = false))
    ∧ ((validateLogParameters stack level pkg message).isValid = true ↔
        (validateLogParameters stack level pkg message).errors = []) := by
  refine ⟨?_, ?_, ?_, ?_, ?_⟩
  · simp [validateLogParameters, mem_ite_singleton]
  · simp [validateLogParameters, mem_ite_singleton]
  · simp [validateLogParameters, mem_ite_singleton]
  · simp [validateLogParameters, mem_ite_singleton, and_assoc]
  · simp [validateLogParameters, List.isEmpty_iff]

/-! ## C4 -/

def authExpired : AuthState := { authToken := some "old", tokenExpiry := some 1000000 }

def stExpired : LoggerState :=
  { retryAttempts := 3, retryDelay := 1000, isInitialized := true, auth := authExpired }

/-- C4 (counterexample): with a stored token that `isTokenValid()` rejects
(expired), the delivery pipeline still attaches the OLD token to the attempt
and succeeds with it — no `authenticate()` is re-run and no new token is
stored; the source only logs a warning and proceeds with the current
token. -/
theorem c4_counterexample :
    isTokenValid authExpired 999999999 = false
    ∧ (sendLogWithRetry stExpired transportOk).headers = ["Bearer old"]
    ∧ (sendLogWithRetry stExpired transportOk).outcome.isOk = true := by
  decide

theorem attemptOnce_header (auth : AuthState) (transport : Nat → AttemptOutcome)
    (attempt : Nat) :
    ((attemptOnce auth transport attempt).2.2.all
      (fun h => getAuthorizationHeader auth == some h)) = true := by
  unfold attemptOnce
  cases hg : getAuthorizationHeader auth with
  | none => simp
  | some h => cases transport attempt <;> simp [hg]

theorem sendAux_headers_all (retryAttempts : Nat) (retryDelay : Int)
    (auth : AuthState) (transport : Nat → AttemptOutcome) :
    ∀ (remaining attempt : Nat) (lastError : Option ErrVal) (waits : List Int)
      (posts : Nat) (headers : List String),
      (headers.all (fun h => getAuthorizationHeader auth == some h)) = true →
      ((sendAux retryAttempts retryDelay auth transport remaining attempt lastError
          waits posts headers).headers.all
        (fun h => getAuthorizationHeader auth == some h)) = true := by
  intro remaining
  induction remaining with
  | zero =>
      intro attempt lastError waits posts headers hh
      simpa [sendAux] using hh
  | succ r ih =>
      intro attempt lastError waits posts headers hh
      have hone := attemptOnce_header auth transport attempt
      unfold sendAux
      rcases hA : attemptOnce auth transport attempt with ⟨o, p, hs⟩
      rw [hA] at hone
      have hcomb : ((headers ++ hs).all
          (fun h => getAuthorizationHeader auth == some h)) = true := by
        rw [List.all_append, Bool.and_eq_true]
        exact ⟨hh, hone⟩
      cases o with
      | ok resp => exact hcomb
      | error e =>
          dsimp only
          by_cases h400 : (e.status == some 400) = true
          · rw [if_pos h400]
            exact hcomb
          · rw [if_neg h400]
            by_cases hr : (r == 0) = true
            · rw [if_pos hr]
              exact hcomb
            · rw [if_neg hr]
              exact ih (attempt + 1) (some e) (waits ++ [retryDelay * Int.ofNat attempt])
                (posts + p) (headers ++ hs) hcomb

/-- C4 (amended): the delivery pipeline never re-authenticates: every
Authorization header it attaches is the one formed from the token already
stored when `sendLogWithRetry` starts, whether or not `isTokenValid()` holds
(the source's validity check only logs a warning).  The token manager's own
`refreshTokenIfNeeded` does re-run `authenticate()` exactly when `isValid()`
is false — but the pipeline never calls it. -/
theorem pipeline_no_reauth (st : LoggerState) (transport : Nat → AttemptOutcome)
    (now : Int) (remote : AuthOutcome) :
    ((sendLogWithRetry st transport).headers.all
        (fun h => getAuthorizationHeader st.auth == some h)) = true
    ∧ (isTokenValid st.auth now = true →
        refreshTokenIfNeeded st.auth now remote = .ok st.auth)
    ∧ (isTokenValid st.auth now = false →
        refreshTokenIfNeeded st.auth now remote = authenticate remote now) := by
  refine ⟨?_, ?_, ?_⟩
  · exact sendAux_headers_all st.retryAttempts st.retryDelay st.auth transport
      st.retryAttempts 1 none [] 0 [] rfl
  · intro h; simp [refreshTokenIfNeeded, h]
  · intro h; simp [refreshTokenIfNeeded, h]

/-- C4 (witness): concrete instance of `pipeline_no_reauth` on an expired
token: the header check holds and `refreshTokenIfNeeded` (called directly)
re-runs `authenticate`. -/
theorem pipeline_no_reauth_witness :
    ((sendLogWithRetry stExpired transportOk).headers.all
        (fun h => getAuthorizationHeader stExpired.auth == some h)) = true
    ∧ refreshTokenIfNeeded stExpired.auth 999999999 (.err "server down") =
        authenticate (.err "server down") 999999999 :=
  ⟨(pipeline_no_reauth stExpired transportOk 999999999 (.err "server down")).1,
   (pipeline_no_reauth stExpired transportOk 999999999 (.err "server down")).2.2
     (by decide)⟩

/-! ## C5 -/

theorem sendAux_step_ok (N : Nat) (d : Int) (auth : AuthState)
    (tr : Nat → AttemptOutcome) (r attempt : Nat) (last : Option ErrVal)
    (waits : List Int) (posts : Nat) (headers : List String)
    (resp : LogResponse) (hdr : String)
    (hh : getAuthorizationHeader auth = some hdr) (ht : tr attempt = .ok resp) :
    sendAux N d auth tr (r + 1) attempt last waits posts headers =
      { outcome := .ok resp, waits := waits, posts := posts + 1
      , headers := headers ++ [hdr] } := by
  rw [sendAux]
  rw [show attemptOnce auth tr attempt = (.ok resp, 1, [hdr]) from by
    simp [attemptOnce, hh, ht]]

theorem sendAux_step_fail (N : Nat) (d : Int) (auth : AuthState)
    (tr : Nat → AttemptOutcome) (r attempt : Nat) (last : Option ErrVal)
    (waits : List Int) (posts : Nat) (headers : List String)
    (e : ErrVal) (hdr : String)
    (hh : getAuthorizationHeader auth = some hdr) (ht : tr attempt = .err e)
    (hs : e.status ≠ some 400) (hr : r ≠ 0) :
    sendAux N d auth tr (r + 1) attempt last waits posts headers =
      sendAux N d auth tr r (attempt + 1) (some e)
        (waits ++ [d * Int.ofNat attempt]) (posts + 1) (headers ++ [hdr]) := by
  rw [sendAux]
  rw [show attemptOnce auth tr attempt = (.error e, 1, [hdr]) from by
    simp [attemptOnce, hh, ht]]
  dsimp only
  rw [if_neg (by simp [hs]), if_neg (by simp [hr])]

theorem sendAux_step_fail_last (N : Nat) (d : Int) (auth : AuthState)
    (tr : Nat → AttemptOutcome) (attempt : Nat) (last : Option ErrVal)
    (waits : List Int) (posts : Nat) (headers : List String)
    (e : ErrVal) (hdr : String)
    (hh : getAuthorizationHeader auth = some hdr) (ht : tr attempt = .err e)
    (hs : e.status ≠ some 400) :
    sendAux N d auth tr (0 + 1) attempt last waits posts headers =
      { outcome := .error (exhaustedError N (some e)), waits := waits
      , posts := posts + 1, headers := headers ++ [hdr] } := by
  rw [sendAux]
  rw [show attemptOnce auth tr attempt = (.error e, 1, [hdr]) from by
    simp [attemptOnce, hh, ht]]
  dsimp only
  rw [if_neg (by simp [hs]), if_pos (by decide)]

/-- A config that leaves the retry knobs unset. -/
def cfgDefault (base : String) : LoggerConfig :=
  { baseURL := base, authToken := none, retryAttempts := none, retryDelay := none }

/-- C5: with `retryAttempts = 3` (also the default produced by the
constructor when the config leaves it out, together with
`retryDelay = 1000`), a transport that fails non-terminally on attempts 1
and 2 leads to exactly two backoff waits of `retryDelay*1` and
`retryDelay*2`; if attempt 3 succeeds the success outcome (carrying the
server-assigned `logID`) is returned, and if attempt 3 also fails the call
throws the error wrapping the last underlying error. -/
theorem sendLogWithRetry_retrySchedule (st : LoggerState)
    (transport : Nat → AttemptOutcome) (hdr : String) (e1 e2 : ErrVal)
    (hA : st.retryAttempts = 3)
    (hh : getAuthorizationHeader st.auth = some hdr)
    (h1 : transport 1 = .err e1) (h1s : e1.status ≠ some 400)
    (h2 : transport 2 = .err e2) (h2s : e2.status ≠ some 400) :
    (∀ r, transport 3 = .ok r →
      sendLogWithRetry st transport =
        { outcome := .ok r, waits := [st.retryDelay * 1, st.retryDelay * 2]
        , posts := 3, headers := [hdr, hdr, hdr] })
    ∧ (∀ e3, transport 3 = .err e3 → e3.status ≠ some 400 →
      sendLogWithRetry st transport =
        { outcome := .error (exhaustedError 3 (some e3))
        , waits := [st.retryDelay * 1, st.retryDelay * 2]
        , posts := 3, headers := [hdr, hdr, hdr] })
    ∧ (∀ base, mkLogger (cfgDefault base) =
        { retryAttempts := 3, retryDelay := 1000, isInitialized := false
        , auth := { authToken := none, tokenExpiry := none } }) := by
  refine ⟨?_, ?_, fun base => rfl⟩
  · intro r hr3
    calc sendLogWithRetry st transport
        = sendAux 3 st.retryDelay st.auth transport 3 1 none [] 0 [] := by
          rw [sendLogWithRetry, hA]
      _ = sendAux 3 st.retryDelay st.auth transport 2 2 (some e1)
            ([] ++ [st.retryDelay * Int.ofNat 1]) (0 + 1) ([] ++ [hdr]) :=
          sendAux_step_fail 3 st.retryDelay st.auth transport 2 1 none [] 0 []
            e1 hdr hh h1 h1s (by decide)
      _ = sendAux 3 st.retryDelay st.auth transport 1 3 (some e2)
            (([] ++ [st.retryDelay * Int.ofNat 1]) ++ [st.retryDelay * Int.ofNat 2])
            (0 + 1 + 1) (([] ++ [hdr]) ++ [hdr]) :=
          sendAux_step_fail 3 st.retryDelay st.auth transport 1 2 (some e1)
            ([] ++ [st.retryDelay * Int.ofNat 1]) (0 + 1) ([] ++ [hdr])
            e2 hdr hh h2 h2s (by decide)
      _ = { outcome := .ok r
          , waits := ([] ++ [st.retryDelay * Int.ofNat 1]) ++ [st.retryDelay * Int.ofNat 2]
          , posts := 0 + 1 + 1 + 1, headers := (([] ++ [hdr]) ++ [hdr]) ++ [hdr] } :=
          sendAux_step_ok 3 st.retryDelay st.auth transport 0 3 (some e2)
            (([] ++ [st.retryDelay * Int.ofNat 1]) ++ [st.retryDelay * Int.ofNat 2])
            (0 + 1 + 1) (([] ++ [hdr]) ++ [hdr]) r hdr hh hr3
      _ = { outcome := .ok r, waits := [st.retryDelay * 1, st.retryDelay * 2]
          , posts := 3, headers := [hdr, hdr, hdr] } := by
          simp
  · intro e3 h3 h3s
    calc sendLogWithRetry st transport
        = sendAux 3 st.retryDelay st.auth transport 3 1 none [] 0 [] := by
          rw [sendLogWithRetry, hA]
      _ = sendAux 3 st.retryDelay st.auth transport 2 2 (some e1)
            ([] ++ [st.retryDelay * Int.ofNat 1]) (0 + 1) ([] ++ [hdr]) :=
          sendAux_step_fail 3 st.retryDelay st.auth transport 2 1 none [] 0 []
            e1 hdr hh h1 h1s (by decide)
      _ = sendAux 3 st.retryDelay st.auth transport 1 3 (some e2)
            (([] ++ [st.retryDelay * Int.ofNat 1]) ++ [st.retryDelay * Int.ofNat 2])
            (0 + 1 + 1) (([] ++ [hdr]) ++ [hdr]) :=
          sendAux_step_fail 3 st.retryDelay st.auth transport 1 2 (some e1)
            ([] ++ [st.retryDelay * Int.ofNat 1]) (0 + 1) ([] ++ [hdr])
            e2 hdr hh h2 h2s (by decide)
      _ = { outcome := .error (exhaustedError 3 (some e3))
          , waits := ([] ++ [st.retryDelay * Int.ofNat 1]) ++ [st.retryDelay * Int.ofNat 2]
          , posts := 0 + 1 + 1 + 1, headers := (([] ++ [hdr]) ++ [hdr]) ++ [hdr] } :=
          sendAux_step_fail_last 3 st.retryDelay st.auth transport 3 (some e2)
            (([] ++ [st.retryDelay * Int.ofNat 1]) ++ [st.retryDelay * Int.ofNat 2])
            (0 + 1 + 1) (([] ++ [hdr]) ++ [hdr]) e3 hdr hh h3 h3s
      _ = { outcome := .error (exhaustedError 3 (some e3))
          , waits := [st.retryDelay * 1, st.retryDelay * 2]
          , posts := 3, headers := [hdr, hdr, hdr] } := by
          simp

def errTimeout : ErrVal := { message := "timeout of 10000ms exceeded", status := none }

/-- C5 (witness): the default-configured logger state against a transport
that times out twice and then succeeds returns the success outcome after
waits of 1000 and 2000 ms. -/
theorem sendLogWithRetry_retrySchedule_witness :
    sendLogWithRetry stEx transportFlaky =
      { outcome := .ok { logID := "log-1", message := "log created successfully" }
      , waits := [1000 * 1, 1000 * 2], posts := 3
      , headers := ["Bearer tok", "Bearer tok", "Bearer tok"] } :=
  (sendLogWithRetry_retrySchedule stEx transportFlaky "Bearer tok" errTimeout errTimeout
      rfl (by decide) (by decide) (by decide) (by decide) (by decide)).1
    { logID := "log-1", message := "log created successfully" } (by decide)

/-! ## C7 -/

/-- C7 (counterexample): two `Log` calls differing only in the case of the
message both validate and succeed, yet deliver different records — the
message is NOT lower-cased, so the calls are not equivalent. -/
theorem c7_counterexample :
    (LoggerLog stEx transportOk "backend" "info" "handler" "A").outcome.isOk = true
    ∧ (LoggerLog stEx transportOk "backend" "info" "handler" "a").outcome.isOk = true
    ∧ (LoggerLog stEx transportOk "backend" "info" "handler" "A").record ≠
        (LoggerLog stEx transportOk "backend" "info" "handler" "a").record := by
  decide

/-- C7 (amended): only the stack, level and package fields are lower-cased
and trimmed before validation — two calls whose stack/level/package agree up
to normalization and whose message is identical are fully equivalent
(identical outcome, waits, record).  The message is case-preserved: the
delivered record carries `message.trim()` with its original case. -/
theorem Log_taxonomy_normalization (st : LoggerState)
    (transport : Nat → AttemptOutcome) (s1 s2 l1 l2 p1 p2 m : String)
    (hs : normalizeValue s1 = normalizeValue s2)
    (hl : normalizeValue l1 = normalizeValue l2)
    (hp : normalizeValue p1 = normalizeValue p2) :
    LoggerLog st transport s1 l1 p1 m = LoggerLog st transport s2 l2 p2 m
    ∧ (∀ rec, (LoggerLog st transport s1 l1 p1 m).record = some rec →
        rec.message = jsTrim m) := by
  constructor
  · simp only [LoggerLog, hs, hl, hp]
  · intro rec h
    unfold LoggerLog at h
    simp only at h
    split at h
    · simp at h
    · split at h
      · simp at h
      · simp only [Option.some.injEq] at h
        rw [← h]

/-- C7 (witness): normalization-insensitive taxonomy fields on concrete
inputs. -/
theorem Log_taxonomy_normalization_witness :
    LoggerLog stEx transportOk " Backend " "INFO" "Handler" "Hi" =
      LoggerLog stEx transportOk "BACKEND" "info" "handler" "Hi" :=
  (Log_taxonomy_normalization stEx transportOk " Backend " "BACKEND" "INFO" "info"
      "Handler" "handler" "Hi" (by decide) (by decide) (by decide)).1

/-! ## C8 -/

/-- C8 (counterexample): with no global logger at all, a call whose
arguments violate the taxonomy fails with the not-initialized error, not
with a validation error — the module-level `Log` checks the global before
any validation. -/
theorem c8_counterexample :
    (Log { globalLogger := none } transportOk "mobile" "info" "handler" "x").outcome =
      .error notInitializedTopError
    ∧ (validateLogParameters "mobile" "info" "handler" "x").isValid = false := by
  decide

/-- C8 (amended): within `Logger.Log` (an existing logger instance),
normalization and validation do precede the initialization check: invalid
arguments fail with the validation error and make no POST regardless of
`isInitialized`, and valid arguments on a non-initialized (e.g. logged-out)
instance fail with the not-initialized error; but when no global logger
exists, the module-level `Log` fails with its not-initialized error before
any validation. -/
theorem Log_validation_order (st : LoggerState) (transport : Nat → AttemptOutcome)
    (stack level pkg message : String) :
    ((validateLogParameters (normalizeValue stack) (normalizeValue level)
        (normalizeValue pkg) message).isValid = false →
      (LoggerLog st transport stack level pkg message).outcome =
        .error (validationFailedError (validateLogParameters (normalizeValue stack)
          (normalizeValue level) (normalizeValue pkg) message))
      ∧ (LoggerLog st transport stack level pkg message).posts = 0)
    ∧ ((validateLogParameters (normalizeValue stack) (normalizeValue level)
        (normalizeValue pkg) message).isValid = true → st.isInitialized = false →
      (LoggerLog st transport stack level pkg message).outcome = .error notInitializedError
      ∧ (LoggerLog st transport stack level pkg message).posts = 0)
    ∧ ((validateLogParameters (normalizeValue stack) (normalizeValue level)
        (normalizeValue pkg) message).isValid = true →
      (LoggerLog (logout st) transport stack level pkg message).outcome =
        .error notInitializedError)
    ∧ (Log { globalLogger := none } transport stack level pkg message).outcome =
        .error notInitializedTopError := by
  refine ⟨?_, ?_, ?_, rfl⟩
  · intro hv
    constructor <;> simp [LoggerLog, hv]
  · intro hv hi
    constructor <;> simp [LoggerLog, hv, hi]
  · intro hv
    simp [LoggerLog, logout, hv]

/-- C8 (witness): concrete instances — invalid stack "mobile" on an
initialized logger yields the validation error with no POST; valid
arguments after `logout()` yield the not-initialized error. -/
theorem Log_validation_order_witness :
    ((LoggerLog stEx transportOk "mobile" "info" "handler" "x").outcome =
        .error (validationFailedError (validateLogParameters (normalizeValue "mobile")
          (normalizeValue "info") (normalizeValue "handler") "x"))
      ∧ (LoggerLog stEx transportOk "mobile" "info" "handler" "x").posts = 0)
    ∧ (LoggerLog (logout stEx) transportOk "backend" "info" "handler" "x").outcome =
        .error notInitializedError :=
  ⟨(Log_validation_order stEx transportOk "mobile" "info" "handler" "x").1 (by decide),
   (Log_validation_order stEx transportOk "backend" "info" "handler" "x").2.2.1 (by decide)⟩
